import Mathlib

/-!
Verification development for the `gemini_webapi` client
(`src/gemini_webapi/client.py`): a shallow embedding of the request
encoder, the response decoder, the retrying call wrapper and the
conversation-session state machine, together with theorems settling the
specification claims.

Modelling conventions:
* JSON-ish Python values are embedded as `PyVal`.  A string whose text is
  the JSON encoding of a value `v` is represented by the dedicated
  constructor `PyVal.enc v`, so that `json.loads` becomes a total Lean
  function (`loads`).  Plain `PyVal.str` values stand for strings that are
  not valid JSON documents.
* Subscripting a string (which in Python yields a one-character string) is
  not modelled: `pyIdx` fails on non-list values.  In the source, every
  place where a string could be subscripted ends in the same
  `TypeError`/`IndexError` handler as the failure modelled here, so no
  claim is affected (noted locally where relevant).
* Exceptions become an `Except GError` result.  The exception hierarchy of
  `gemini_webapi.exceptions` is not under `src/`; it is modelled from the
  spec's error taxonomy (section 7) together with the source's own usage
  (`except APIError` catching `ImageGenerationError`, `except GeminiError`
  re-raising the classified rejections).
-/

/-- Embedded Python/JSON value. `enc v` is a string whose text is the JSON
encoding of `v` (see the module conventions above). -/
inductive PyVal where
  | null
  | int (n : Int)
  | str (s : String)
  | list (xs : List PyVal)
  | enc (v : PyVal)

/-- Python truthiness of an embedded value: `None`, `0`, `""` and `[]` are
falsy, everything else is truthy.  An `enc` value is a non-empty string,
hence truthy. -/
def truthy : PyVal → Bool
  | .null => false
  | .int n => n != 0
  | .str s => s != ""
  | .list xs => !xs.isEmpty
  | .enc _ => true

/-- Models `json.loads` applied to a payload element: only a string that is
a valid JSON document parses (represented by `enc`); any other value fails
(`TypeError` for a non-string, `ValueError` for an undecodable string). -/
def loads : PyVal → Option PyVal
  | .enc v => some v
  | _ => Option.none

/-- Models `v[i]` for a non-negative literal index: succeeds only on a list
that is long enough (`IndexError` when too short, `TypeError` on a
non-list; string subscripting is not modelled). -/
def pyIdx : PyVal → Nat → Option PyVal
  | .list xs, i => xs.get? i
  | _, _ => Option.none

/-- Models Python list indexing `xs[i]` with an `int` index, including the
negative-index convention: `xs[i]` is `xs[len(xs)+i]` for `-len ≤ i < 0`
and raises `IndexError` (here: `none`) outside `[-len, len)`. -/
def pyGetI {α : Type} (xs : List α) (i : Int) : Option α :=
  if 0 ≤ i then xs.get? i.toNat
  else if 0 ≤ i + (xs.length : Int) then xs.get? (i + (xs.length : Int)).toNat
  else Option.none

/-- Models `len(v)`: defined for lists and plain strings, `TypeError`
otherwise (`enc` payload strings are treated as opaque here; no claim
takes the length of an encoded payload). -/
def pyLen : PyVal → Option Nat
  | .list xs => some xs.length
  | .str s => some s.length
  | _ => Option.none

/-- Models the comparison `part[-1] == tag` from `fetch_gems`, where `tag`
is one of the multi-character strings "system"/"custom": on a non-empty
list it compares the last element against the tag; on a non-empty string
the last character is a one-character string and never equals the tag; on
an empty sequence it is an `IndexError`, and on `None`/int a `TypeError`
(both surface as `none` here). -/
def pyLastEqTag : PyVal → String → Option Bool
  | .list xs, tag =>
    match xs.getLast? with
    | some (.str s) => some (s == tag)
    | some _ => some false
    | Option.none => Option.none
  | .str s, _ => if s == "" then Option.none else some false
  | .enc _, _ => some false
  | _, _ => Option.none

/-- Best-effort model of Python `str()` conversion, used only for the
generated-image title interpolation; list/enc rendering is simplified
(no claim depends on it). -/
def pyStr : PyVal → String
  | .null => "None"
  | .int n => toString n
  | .str s => s
  | .enc v => pyStr v
  | .list _ => "[...]"

/-- The error kinds a call can surface.  `GeminiError` stands for the
base-class instance raised on a zero-candidate response; `ValueError` and
`IndexError` stand for uncaught Python builtin exceptions
(`TypeError`-or-`IndexError` escapes are folded into `IndexError`). -/
inductive GError where
  | AuthError
  | APIError
  | ImageGenerationError
  | UsageLimitExceeded
  | ModelInvalid
  | TemporarilyBlocked
  | TimeoutError
  | GeminiError
  | ValueError
  | IndexError
deriving DecidableEq, Repr

/-- Models `isinstance(e, APIError)`.  Modelled from the spec (section 7
taxonomy) and the source's usage, since `exceptions.py` is not under
`src/`: `ImageGenerationError` and the three classified rejections are
subclasses of `APIError` (the decorator's `except APIError` must catch
`ImageGenerationError`, and the retry policy of section 4.4 applies to the
classified errors); `AuthError`, `TimeoutError` and the zero-candidate
`GeminiError` are siblings of `APIError`, not subclasses. -/
def isAPIError : GError → Bool
  | .APIError => true
  | .ImageGenerationError => true
  | .UsageLimitExceeded => true
  | .ModelInvalid => true
  | .TemporarilyBlocked => true
  | _ => false

/-- Modelled from the spec: numeric value of `ErrorCode.USAGE_LIMIT_EXCEEDED`
(`constants.py` is not under `src/`; section 4.3 fixes the closed member
set of the enum but not the numeric values, so three distinct placeholder
values are used — every claim depends only on their distinctness). -/
def usageLimitExceededCode : Int := 1037

/-- Modelled from the spec: numeric value of `ErrorCode.MODEL_HEADER_INVALID`
(see `usageLimitExceededCode`). -/
def modelHeaderInvalidCode : Int := 1052

/-- Modelled from the spec: numeric value of `ErrorCode.IP_TEMPORARILY_BLOCKED`
(see `usageLimitExceededCode`). -/
def ipTemporarilyBlockedCode : Int := 1060

/-- Reads `response_json[0][5][2][0][1][0]`, the fixed nested position of
the numeric rejection code (client.py line 527). -/
def readErrorCode (outer : PyVal) : Option PyVal :=
  pyIdx outer 0 >>= fun a => pyIdx a 5 >>= fun b => pyIdx b 2 >>=
    fun c => pyIdx c 0 >>= fun d => pyIdx d 1 >>= fun e => pyIdx e 0

/-- The error-classification block of `generate_content` (client.py lines
526-549): read the code at the fixed position and map it through the
`ErrorCode` enum; a read failure, a non-member value (`ErrorCode(x)`
raises `ValueError`) or a non-int value falls through to the generic
`APIError`. -/
def classifyError (outer : PyVal) : GError :=
  match readErrorCode outer with
  | some (.int n) =>
    if n = usageLimitExceededCode then .UsageLimitExceeded
    else if n = modelHeaderInvalidCode then .ModelInvalid
    else if n = ipTemporarilyBlockedCode then .TemporarilyBlocked
    else .APIError
  | some _ => .APIError
  | Option.none => .APIError

/-- One step of the body-location loop (client.py lines 512-519): a part is
the body when `json.loads(part[2])[4]` is truthy; an `IndexError`,
`TypeError` or `ValueError` along the way, or a falsy element 4, makes the
loop continue. -/
def bodyCheck (part : PyVal) : Option PyVal :=
  match pyIdx part 2 with
  | Option.none => Option.none
  | some p2 =>
    match loads p2 with
    | Option.none => Option.none
    | some mp =>
      match pyIdx mp 4 with
      | Option.none => Option.none
      | some e4 => if truthy e4 then some mp else Option.none

/-- Auxiliary recursion for `findBody`, carrying the enumeration index. -/
def findBodyAux : Nat → List PyVal → Option (Nat × PyVal)
  | _, [] => Option.none
  | i, p :: rest =>
    match bodyCheck p with
    | some b => some (i, b)
    | Option.none => findBodyAux (i + 1) rest

/-- The body-location loop: the first part whose re-parsed element 2 has a
truthy element 4, together with its index in the outer array. -/
def findBody (parts : List PyVal) : Option (Nat × PyVal) :=
  findBodyAux 0 parts

/-- The characters of the card-content placeholder URL head, from the
regex at client.py line 556. -/
def cardContentPat : List Char :=
  "http://googleusercontent.com/card_content/".data

/-- Models `re.match(r"^http://googleusercontent\.com/card_content/\d+", text)`:
the text starts with the literal head followed by at least one digit. -/
def isCardContent (s : String) : Bool :=
  cardContentPat.isPrefixOf s.data &&
    (match s.data.drop cardContentPat.length with
     | c :: _ => c.isDigit
     | [] => false)

/-- The characters of the generated-image placeholder URL head, from the
regex at client.py line 604. -/
def imgGenPat : List Char :=
  "http://googleusercontent.com/image_generation_content/".data

/-- Auxiliary bound used for the termination of `stripImgGen`. -/
theorem dropWhileLenLe (p : Char → Bool) (l : List Char) :
    (l.dropWhile p).length ≤ l.length := by
  induction l with
  | nil => simp [List.dropWhile]
  | cons c rest ih =>
    simp only [List.dropWhile]
    split
    · exact Nat.le_succ_of_le ih
    · simp

/-- Models `re.sub(r"http://googleusercontent\.com/image_generation_content/\d+", "", s)`
on the character list: every leftmost occurrence of the literal head
followed by a maximal non-empty digit run is removed. -/
def stripImgGen : List Char → List Char
  | [] => []
  | c :: rest =>
    if imgGenPat.isPrefixOf (c :: rest) then
      if (((c :: rest).drop imgGenPat.length).takeWhile Char.isDigit).isEmpty then
        c :: stripImgGen rest
      else stripImgGen (((c :: rest).drop imgGenPat.length).dropWhile Char.isDigit)
    else c :: stripImgGen rest
termination_by l => l.length
decreasing_by
  all_goals simp only [List.length_cons]
  all_goals try omega
  have h1 := dropWhileLenLe Char.isDigit (List.drop imgGenPat.length (c :: rest))
  have h2 : (List.drop imgGenPat.length (c :: rest)).length
      = (c :: rest).length - imgGenPat.length := List.length_drop _ _
  have h3 : 0 < imgGenPat.length := by decide
  simp only [List.length_cons] at h2
  omega

/-- Python's `str.rstrip()` whitespace set. -/
def pyIsSpace (c : Char) : Bool :=
  c == ' ' || c == '\t' || c == '\n' || c == '\r' || c == '\x0b' || c == '\x0c'

/-- Models `s.rstrip()`. -/
def pyRstrip (s : String) : String :=
  ⟨(s.data.reverse.dropWhile pyIsSpace).reverse⟩

/-- A web image extracted from a candidate (`types.py` is not under `src/`;
only the three positional fields consumed by the parser are modelled —
`WebImage(url=..., title=..., alt=...)`). -/
structure WebImage where
  url : PyVal
  title : PyVal
  alt : PyVal

/-- A generated image extracted from the image body (fields as passed to
`GeneratedImage(...)` at client.py lines 609-622). -/
structure GeneratedImage where
  url : PyVal
  title : String
  alt : PyVal

/-- One reply candidate, with the fields passed to `Candidate(...)` at
client.py lines 624-632. -/
structure Candidate where
  rcid : PyVal
  text : PyVal
  thoughts : Option PyVal
  web_images : List WebImage
  generated_images : List GeneratedImage

/-- Modelled from the spec: `ModelOutput` (`types.py` is not under `src/`),
per section 3 — a lineage snapshot (`metadata = body[1]`), the ordered
candidates, and a mutable `chosen` index defaulting to 0.  Its `rcid`
property (`rcidVal` below) returns the chosen candidate's `rcid`. -/
structure ModelOutput where
  metadata : PyVal
  candidates : List Candidate
  chosen : Int

/-- Modelled from the spec: the `ModelOutput.rcid` property — the `rcid` of
`candidates[chosen]` under Python list indexing (an out-of-range `chosen`
raises `IndexError`, here `none`). -/
def ModelOutput.rcidVal (o : ModelOutput) : Option PyVal :=
  (pyGetI o.candidates o.chosen).map Candidate.rcid

/-- The text-extraction step for one candidate (client.py lines 554-558):
`text = candidate[1][0]`, then, when the text matches the card-content
placeholder, `text = candidate[22] and candidate[22][0] or text`.  An
`IndexError`/`TypeError` surfaces as the generic `APIError` (it is caught
at lines 639-643); `re.match` on a non-string raises `TypeError`, with the
same effect. -/
def textPhase (candidate : PyVal) : Except GError PyVal :=
  match pyIdx candidate 1 with
  | Option.none => .error .APIError
  | some c1 =>
    match pyIdx c1 0 with
    | Option.none => .error .APIError
    | some t =>
      match t with
      | .str s =>
        if isCardContent s then
          match pyIdx candidate 22 with
          | Option.none => .error .APIError
          | some c22 =>
            if truthy c22 then
              match pyIdx c22 0 with
              | Option.none => .error .APIError
              | some v => .ok (if truthy v then v else t)
            else .ok t
        else .ok t
      | _ => .error .APIError

/-- The thoughts-extraction step (client.py lines 560-563): `candidate[37][0][0]`
with `TypeError`/`IndexError` mapped to `None`. -/
def thoughtsPhase (candidate : PyVal) : Option PyVal :=
  pyIdx candidate 37 >>= fun a => pyIdx a 0 >>= fun b => pyIdx b 0

/-- One web image: `WebImage(url=w[0][0][0], title=w[7][0], alt=w[0][4])`
(client.py lines 569-574); an indexing failure surfaces as `APIError`. -/
def webImageOf (w : PyVal) : Except GError WebImage :=
  match pyIdx w 0 >>= fun a => pyIdx a 0 >>= fun b => pyIdx b 0 with
  | Option.none => .error .APIError
  | some url =>
    match pyIdx w 7 >>= fun a => pyIdx a 0 with
    | Option.none => .error .APIError
    | some title =>
      match pyIdx w 0 >>= fun a => pyIdx a 4 with
      | Option.none => .error .APIError
      | some alt => .ok ⟨url, title, alt⟩

/-- The web-image list comprehension over `candidate[12][1]`. -/
def webImagesOf : List PyVal → Except GError (List WebImage)
  | [] => .ok []
  | w :: rest =>
    match webImageOf w with
    | .error e => .error e
    | .ok wi =>
      match webImagesOf rest with
      | .error e => .error e
      | .ok rest' => .ok (wi :: rest')

/-- The web-image step (client.py lines 565-578):
`candidate[12] and candidate[12][1] and [comprehension] or []`.  A falsy
`candidate[12]` or `candidate[12][1]` yields `[]`; iterating a non-list
container fails with `APIError` (in the source a string container would
fail inside the comprehension with the same `IndexError` handler). -/
def webImagesPhase (candidate : PyVal) : Except GError (List WebImage) :=
  match pyIdx candidate 12 with
  | Option.none => .error .APIError
  | some c12 =>
    if truthy c12 then
      match pyIdx c12 1 with
      | Option.none => .error .APIError
      | some c121 =>
        if truthy c121 then
          match c121 with
          | .list ws => webImagesOf ws
          | _ => .error .APIError
        else .ok []
    else .ok []

/-- The generated-image presence test (client.py line 581):
`candidate[12] and candidate[12][7] and candidate[12][7][0]` as a
truthiness value, an indexing failure surfacing as `APIError`. -/
def genMarkerPhase (candidate : PyVal) : Except GError Bool :=
  match pyIdx candidate 12 with
  | Option.none => .error .APIError
  | some c12 =>
    if truthy c12 then
      match pyIdx c12 7 with
      | Option.none => .error .APIError
      | some c127 =>
        if truthy c127 then
          match pyIdx c127 0 with
          | Option.none => .error .APIError
          | some c1270 => .ok (truthy c1270)
        else .ok false
    else .ok false

/-- One step of the image-body scan (client.py lines 587-593): re-parse
`part[2]` and test `img_part[4][candidate_index][12][7][0]` for truthiness;
any `IndexError`/`TypeError`/`ValueError` makes the scan continue. -/
def imgBodyCheck (ci : Nat) (part : PyVal) : Option PyVal :=
  match pyIdx part 2 with
  | Option.none => Option.none
  | some p2 =>
    match loads p2 with
    | Option.none => Option.none
    | some ip =>
      match pyIdx ip 4 >>= fun a => pyIdx a ci >>= fun b =>
          pyIdx b 12 >>= fun c => pyIdx c 7 >>= fun d => pyIdx d 0 with
      | some m => if truthy m then some ip else Option.none
      | Option.none => Option.none

/-- Auxiliary recursion for `findImgBody`, carrying the enumeration index:
parts before `bodyIndex` are skipped (client.py lines 583-585). -/
def findImgBodyAux (ci bodyIndex : Nat) : Nat → List PyVal → Option PyVal
  | _, [] => Option.none
  | i, p :: rest =>
    if i < bodyIndex then findImgBodyAux ci bodyIndex (i + 1) rest
    else
      match imgBodyCheck ci p with
      | some b => some b
      | Option.none => findImgBodyAux ci bodyIndex (i + 1) rest

/-- The image-body scan: the first part at index `≥ bodyIndex` whose
re-parsed body has a truthy generated-image marker at candidate index
`ci`. -/
def findImgBody (parts : List PyVal) (bodyIndex ci : Nat) : Option PyVal :=
  findImgBodyAux ci bodyIndex 0 parts

/-- One generated image (client.py lines 609-622):
`url = g[0][3][3]`, `title = "[Generated Image " + str(g[3][6]) + "]"`,
`alt = len(g[3][5]) > i and g[3][5][i] or g[3][5][0]`. -/
def generatedImageOf (i : Nat) (g : PyVal) : Except GError GeneratedImage :=
  match pyIdx g 0 >>= fun a => pyIdx a 3 >>= fun b => pyIdx b 3 with
  | Option.none => .error .APIError
  | some url =>
    match pyIdx g 3 >>= fun a => pyIdx a 6 with
    | Option.none => .error .APIError
    | some g36 =>
      match pyIdx g 3 >>= fun a => pyIdx a 5 with
      | Option.none => .error .APIError
      | some g35 =>
        match pyLen g35 with
        | Option.none => .error .APIError
        | some n =>
          if i < n then
            match pyIdx g35 i with
            | Option.none => .error .APIError
            | some v =>
              if truthy v then .ok ⟨url, "[Generated Image " ++ pyStr g36 ++ "]", v⟩
              else
                match pyIdx g35 0 with
                | Option.none => .error .APIError
                | some a0 => .ok ⟨url, "[Generated Image " ++ pyStr g36 ++ "]", a0⟩
          else
            match pyIdx g35 0 with
            | Option.none => .error .APIError
            | some a0 => .ok ⟨url, "[Generated Image " ++ pyStr g36 ++ "]", a0⟩

/-- The generated-image list comprehension with its enumeration index. -/
def generatedImagesOf : Nat → List PyVal → Except GError (List GeneratedImage)
  | _, [] => .ok []
  | i, g :: rest =>
    match generatedImageOf i g with
    | .error e => .error e
    | .ok gi =>
      match generatedImagesOf (i + 1) rest with
      | .error e => .error e
      | .ok rest' => .ok (gi :: rest')

/-- The generated-image branch taken when the marker is truthy (client.py
lines 582-622): scan for the image body; when the scan exhausts, raise
`ImageGenerationError` (which is not caught by the `TypeError`/`IndexError`
handler); otherwise re-derive the candidate text by stripping the
placeholder and build the generated-image list.  Returns the new text and
the images. -/
def genImagesPhase (parts : List PyVal) (bodyIndex ci : Nat) :
    Except GError (PyVal × List GeneratedImage) :=
  match findImgBody parts bodyIndex ci with
  | Option.none => .error .ImageGenerationError
  | some imgBody =>
    match pyIdx imgBody 4 >>= fun a => pyIdx a ci with
    | Option.none => .error .APIError
    | some imgCand =>
      match pyIdx imgCand 1 >>= fun a => pyIdx a 0 with
      | Option.none => .error .APIError
      | some t =>
        match t with
        | .str s =>
          match pyIdx imgCand 12 >>= fun a => pyIdx a 7 >>= fun b => pyIdx b 0 with
          | Option.none => .error .APIError
          | some (.list gs) =>
            match generatedImagesOf 0 gs with
            | .error e => .error e
            | .ok imgs => .ok (.str (pyRstrip ⟨stripImgGen s.data⟩), imgs)
          | some _ => .error .APIError
        | _ => .error .APIError

/-- Extraction of one candidate (client.py lines 553-632), composing the
phases in source order; the `rcid` argument of `Candidate(...)` is
evaluated last. -/
def parseCandidate (parts : List PyVal) (bodyIndex ci : Nat) (candidate : PyVal) :
    Except GError Candidate :=
  match textPhase candidate with
  | .error e => .error e
  | .ok text =>
    let thoughts := thoughtsPhase candidate
    match webImagesPhase candidate with
    | .error e => .error e
    | .ok webImages =>
      match genMarkerPhase candidate with
      | .error e => .error e
      | .ok marker =>
        match (if marker then genImagesPhase parts bodyIndex ci else .ok (text, [])) with
        | .error e => .error e
        | .ok (text', generatedImages) =>
          match pyIdx candidate 0 with
          | Option.none => .error .APIError
          | some rcid => .ok ⟨rcid, text', thoughts, webImages, generatedImages⟩

/-- The candidate loop over `body[4]` with its enumeration index. -/
def parseCandidates (parts : List PyVal) (bodyIndex : Nat) :
    Nat → List PyVal → Except GError (List Candidate)
  | _, [] => .ok []
  | ci, c :: rest =>
    match parseCandidate parts bodyIndex ci c with
    | .error e => .error e
    | .ok cand =>
      match parseCandidates parts bodyIndex (ci + 1) rest with
      | .error e => .error e
      | .ok rest' => .ok (cand :: rest')

/-- The candidate phase of `generate_content` (client.py lines 551-643):
iterate `body[4]`, raise the zero-candidate `GeminiError` when nothing was
extracted, then build `ModelOutput(metadata=body[1], candidates=...)`.
`TypeError`/`IndexError` (including iterating a non-list `body[4]`)
surfaces as `APIError`. -/
def candidatePhase (parts : List PyVal) (bodyIndex : Nat) (body : PyVal) :
    Except GError ModelOutput :=
  match pyIdx body 4 with
  | Option.none => .error .APIError
  | some (.list cs) =>
    match parseCandidates parts bodyIndex 0 cs with
    | .error e => .error e
    | .ok cands =>
      if cands.isEmpty then .error .GeminiError
      else
        match pyIdx body 1 with
        | Option.none => .error .APIError
        | some md => .ok ⟨md, cands, 0⟩
  | some _ => .error .APIError

/-- The response-handling phase of `generate_content` (client.py lines
501-648), starting from the received status code and the JSON value parsed
from line 2 of the response text (`none` when that line is missing or
undecodable), assuming the client was running.  The second component is
the `running` flag afterwards: a non-200 status and a structural failure
close the client; candidate-phase errors (`APIError` at line 641,
`ImageGenerationError`, the zero-candidate `GeminiError`) do not. -/
def generate_content_handle (status : Nat) (outer? : Option PyVal) :
    Except GError ModelOutput × Bool :=
  if status ≠ 200 then (.error .APIError, false)
  else
    match outer? with
    | Option.none => (.error .APIError, false)
    | some outer =>
      match outer with
      | .list parts =>
        match findBody parts with
        | Option.none => (.error (classifyError outer), false)
        | some (bi, body) => (candidatePhase parts bi body, true)
      | _ => (.error (classifyError outer), false)

/-- A gem as built by `fetch_gems` (client.py lines 366-395); `types.py` is
not under `src/`, so only the constructor fields actually passed are
modelled. -/
structure Gem where
  id : PyVal
  name : PyVal
  description : PyVal
  prompt : PyVal
  predefined : Bool

/-- One `Gem(...)` construction from a raw entry (client.py lines 369-392):
`id = gem[0]`, `name = gem[1][0]`, `description = gem[1][1]`,
`prompt = gem[2] and gem[2][0] or None`.  This runs outside the
`try`/`except` of lines 345-364, so an indexing failure escapes as a raw
builtin exception (`IndexError` here), not as `APIError`. -/
def gemOfEntry (predef : Bool) (g : PyVal) : Except GError Gem :=
  match pyIdx g 0 with
  | Option.none => .error .IndexError
  | some gid =>
    match pyIdx g 1 >>= fun a => pyIdx a 0 with
    | Option.none => .error .IndexError
    | some nm =>
      match pyIdx g 1 >>= fun a => pyIdx a 1 with
      | Option.none => .error .IndexError
      | some desc =>
        match pyIdx g 2 with
        | Option.none => .error .IndexError
        | some g2 =>
          if truthy g2 then
            match pyIdx g2 0 with
            | Option.none => .error .IndexError
            | some v => .ok ⟨gid, nm, desc, if truthy v then v else .null, predef⟩
          else .ok ⟨gid, nm, desc, .null, predef⟩

/-- The `(gem[0], Gem(...))` pairs for one of the two generator expressions
feeding `GemJar` (consumed in order by `itertools.chain`). -/
def gemsOfList (predef : Bool) : List PyVal → Except GError (List (PyVal × Gem))
  | [] => .ok []
  | g :: rest =>
    match gemOfEntry predef g with
    | .error e => .error e
    | .ok gm =>
      match gemsOfList predef rest with
      | .error e => .error e
      | .ok rest' => .ok ((gm.id, gm) :: rest')

/-- The tag-dispatch loop of `fetch_gems` (client.py lines 350-355),
threading the `predefined_gems` / `custom_gems` accumulators (both start
as `[]`): a "system" part replaces the former with `json.loads(part[2])[2]`,
a "custom" part replaces the latter when `json.loads(part[2])` is truthy.
Any failure (`none`) is an exception inside the `try`. -/
def gemPartsLoop : List PyVal → PyVal → PyVal → Option (PyVal × PyVal)
  | [], pred, cust => some (pred, cust)
  | part :: rest, pred, cust =>
    match pyLastEqTag part "system" with
    | Option.none => Option.none
    | some true =>
      match pyIdx part 2 >>= loads >>= fun l => pyIdx l 2 with
      | Option.none => Option.none
      | some v => gemPartsLoop rest v cust
    | some false =>
      match pyLastEqTag part "custom" with
      | Option.none => Option.none
      | some true =>
        match pyIdx part 2 >>= loads with
        | Option.none => Option.none
        | some l =>
          if truthy l then
            match pyIdx l 2 with
            | Option.none => Option.none
            | some v => gemPartsLoop rest pred v
          else gemPartsLoop rest pred cust
      | some false => gemPartsLoop rest pred cust

/-- The response-handling phase of `fetch_gems` (client.py lines 340-397),
from the status code and the JSON value parsed from line 2 of the response
(`none` when missing/undecodable), assuming the client was running.  The
second component is the `running` flag afterwards.  A non-200 status
raises `APIError` WITHOUT closing (lines 340-343 have no `close()` call);
a parse failure inside the `try` closes and raises `APIError`; the
`GemJar` construction runs outside the `try`, so its failures escape raw
without closing. -/
def fetch_gems_handle (status : Nat) (outer? : Option PyVal) :
    Except GError (List (PyVal × Gem)) × Bool :=
  if status ≠ 200 then (.error .APIError, true)
  else
    match outer? with
    | Option.none => (.error .APIError, false)
    | some outer =>
      match outer with
      | .list parts =>
        match gemPartsLoop parts (.list []) (.list []) with
        | Option.none => (.error .APIError, false)
        | some (pred, cust) =>
          if !truthy pred && !truthy cust then (.error .APIError, false)
          else
            match pred with
            | .list ps =>
              match gemsOfList true ps with
              | .error e => (.error e, true)
              | .ok pgems =>
                match cust with
                | .list cs =>
                  match gemsOfList false cs with
                  | .error e => (.error e, true)
                  | .ok cgems => (.ok (pgems ++ cgems), true)
                | _ => (.error .IndexError, true)
            | _ => (.error .IndexError, true)
      | _ => (.error .APIError, false)

/-- The client state relevant to the readiness/retry wrapper. -/
structure Client where
  running : Bool
deriving DecidableEq, Repr

/-- Modelled from the spec plus the source `init` (client.py lines 160-226):
on success the client is marked running (line 205; `init` cannot return
normally with `running` still false); on any failure it closes itself
(running := false) and re-raises.  The credential-acquisition outcome
(`get_access_token`, in the `utils` module which is not under `src/`) is
abstracted as the `acquire` parameter: per spec sections 4.1 and 7 a failed
acquisition raises `AuthError`. -/
def initClient (acquire : Option GError) (c : Client) : Except GError Unit × Client :=
  match acquire with
  | Option.none => (.ok (), { c with running := true })
  | some e => (.error e, { c with running := false })

/-- One attempt of the `running` decorator's `try` body (client.py lines
48-66): call through when running; otherwise initialize first, then call
through when initialization yielded a running client, else raise the
"initialization failed" `APIError` (the source comment marks this branch
unreachable).  `func n` is the outcome of the n-th invocation of the
wrapped call; the `Nat` component counts invocations. -/
def attemptOnce {α : Type} (acquire : Option GError) (func : Nat → Except GError α)
    (c : Client) (calls : Nat) : Except GError α × Client × Nat :=
  if c.running then
    (func calls, c, calls + 1)
  else
    match initClient acquire c with
    | (.ok _, c') =>
      if c'.running then (func calls, c', calls + 1)
      else (.error .APIError, c', calls)
    | (.error e, c') => (.error e, c', calls)

/-- The budget adjustment of client.py lines 68-70: an
`ImageGenerationError` caps the remaining budget at `min 1 retry`; any
other caught error keeps the caller's budget. -/
def adjustBudget (e : GError) (retry : Nat) : Nat :=
  if e = GError.ImageGenerationError then min 1 retry else retry

/-- The adjusted budget never exceeds the configured budget. -/
theorem adjustBudget_le (e : GError) (retry : Nat) : adjustBudget e retry ≤ retry := by
  unfold adjustBudget
  split
  · exact Nat.min_le_right 1 retry
  · exact Nat.le_refl retry

/-- The `running(retry=...)` decorator's wrapper (client.py lines 45-78):
run the body; when it raises an error caught by `except APIError`, reduce
the budget to `min 1 retry` for an `ImageGenerationError`, then recurse
with `retry - 1` while the budget is positive, else re-raise.  Errors that
are not `APIError` instances propagate immediately. -/
def runningWrapper {α : Type} (acquire : Option GError) (func : Nat → Except GError α) :
    Client → Nat → Nat → Except GError α × Client × Nat
  | c, calls, retry =>
    match attemptOnce acquire func c calls with
    | (.ok a, c', calls') => (.ok a, c', calls')
    | (.error e, c', calls') =>
      if isAPIError e then
        if h : 0 < adjustBudget e retry then
          runningWrapper acquire func c' calls' (adjustBudget e retry - 1)
        else (.error e, c', calls')
      else (.error e, c', calls')
termination_by _ _ retry => retry
decreasing_by
  have hle := adjustBudget_le e retry
  omega

/-- The conversation session (client.py lines 669-850): the private
3-element metadata triple `[cid, rid, rcid]`, the last output, and the
model/gem selectors (held but never read by the operations modelled
here). -/
structure ChatSession where
  metadata : List PyVal
  last_output : Option ModelOutput
  model : String
  gem : Option String

/-- The `metadata` property setter (client.py lines 822-826): reject more
than 3 elements with `ValueError`, otherwise slice-assign
`__metadata[:len(value)] = value`, which replaces exactly the first
`len(value)` slots and keeps the rest. -/
def ChatSession.setMetadata (s : ChatSession) (value : List PyVal) :
    Except GError ChatSession :=
  if 3 < value.length then .error .ValueError
  else .ok { s with metadata := value ++ s.metadata.drop value.length }

/-- The `cid` property setter (client.py lines 832-834): mutate slot 0. -/
def ChatSession.setCid (s : ChatSession) (v : PyVal) : ChatSession :=
  { s with metadata := s.metadata.set 0 v }

/-- The `rid` property setter (client.py lines 840-842): mutate slot 1. -/
def ChatSession.setRid (s : ChatSession) (v : PyVal) : ChatSession :=
  { s with metadata := s.metadata.set 1 v }

/-- The `rcid` property setter (client.py lines 848-850): mutate slot 2. -/
def ChatSession.setRcid (s : ChatSession) (v : PyVal) : ChatSession :=
  { s with metadata := s.metadata.set 2 v }

/-- `ChatSession.__init__` (client.py lines 701-724): the triple starts as
`[None, None, None]`; a truthy `metadata` argument goes through the bulk
setter (which can raise `ValueError`); then each truthy id override goes
through its single-slot setter.  A `None` or empty string id is falsy and
skipped. -/
def ChatSession.make (metadata : Option (List PyVal)) (cid rid rcid : Option String)
    (model : String) (gem : Option String) : Except GError ChatSession :=
  let s0 : ChatSession := ⟨[.null, .null, .null], Option.none, model, gem⟩
  match
    ((match metadata with
      | some m => if m.isEmpty then .ok s0 else s0.setMetadata m
      | Option.none => .ok s0) : Except GError ChatSession) with
  | .error e => .error e
  | .ok s1 =>
    let s2 := match cid with
      | some c => if c = "" then s1 else s1.setCid (.str c)
      | Option.none => s1
    let s3 := match rid with
      | some r => if r = "" then s2 else s2.setRid (.str r)
      | Option.none => s2
    let s4 := match rcid with
      | some r => if r = "" then s3 else s3.setRcid (.str r)
      | Option.none => s3
    .ok s4

/-- `ChatSession.choose_candidate(index)` (client.py lines 786-816): raise
`ValueError` when there is no previous output or `index >= len(candidates)`;
otherwise set `chosen` on the last output, assign `self.rcid` from the
output's `rcid` property (Python indexing — an out-of-range negative
`chosen` would escape as `IndexError`), and return the last output. -/
def ChatSession.choose_candidate (s : ChatSession) (index : Int) :
    Except GError (ModelOutput × ChatSession) :=
  match s.last_output with
  | Option.none => .error .ValueError
  | some out =>
    if (out.candidates.length : Int) ≤ index then .error .ValueError
    else
      let out' : ModelOutput := { out with chosen := index }
      match out'.rcidVal with
      | Option.none => .error .IndexError
      | some rc =>
        .ok (out', ({ s with last_output := some out' } : ChatSession).setRcid rc)

/-- The `__setattr__` hook for `last_output` (client.py lines 731-736):
storing a new output also assigns `self.metadata = value.metadata` (the
bulk setter, requiring a list of at most 3; a non-list raises `TypeError`,
folded into `IndexError` here) and `self.rcid = value.rcid`. -/
def ChatSession.applyOutput (s : ChatSession) (o : ModelOutput) :
    Except GError ChatSession :=
  let s1 : ChatSession := { s with last_output := some o }
  match o.metadata with
  | .list m =>
    match s1.setMetadata m with
    | .error e => .error e
    | .ok s2 =>
      match o.rcidVal with
      | Option.none => .error .IndexError
      | some rc => .ok (s2.setRcid rc)
  | _ => .error .IndexError

/-- The content envelope of the request encoder (client.py lines 471-484):
`[prompt]` without attachments, else
`[prompt, 0, None, [[[uploadRef], fileName], ...]]`.  Attachments are
modelled as already-uploaded `(uploadRef, fileName)` pairs (`upload_file`
is an external collaborator per spec section 1); a `None` or empty `files`
argument is falsy, giving the bare `[prompt]` shape. -/
def contentEnvelope (prompt : String) (files : List (PyVal × PyVal)) : PyVal :=
  if files.isEmpty then .list [.str prompt]
  else
    .list [.str prompt, .int 0, .null,
      .list (files.map (fun f => .list [.list [f.1], f.2]))]

/-- The lineage slot of the turn envelope (client.py line 486):
`chat and chat.metadata`.  A `ChatSession` object is always truthy, so a
supplied session contributes its metadata list (whatever its contents);
only a missing session yields `None`. -/
def lineageSlot (chat : Option ChatSession) : PyVal :=
  match chat with
  | Option.none => .null
  | some s => .list s.metadata

/-- The persona suffix of the turn envelope (client.py line 488):
`gem and [None] * 16 + [gem] or []`.  Under Python truthiness an empty-string
gem id behaves like no gem. -/
def gemSuffix (gem : Option String) : List PyVal :=
  match gem with
  | some g => if g = "" then [] else List.replicate 16 PyVal.null ++ [PyVal.str g]
  | Option.none => []

/-- The turn envelope before the persona suffix (client.py lines 470-487):
`[contentEnvelope, None, lineageSlot]`. -/
def turnEnvelopeCore (prompt : String) (files : List (PyVal × PyVal))
    (chat : Option ChatSession) : List PyVal :=
  [contentEnvelope prompt files, .null, lineageSlot chat]

/-- The full inner turn envelope (client.py lines 470-489): the core plus
the persona suffix. -/
def turnEnvelope (prompt : String) (files : List (PyVal × PyVal))
    (chat : Option ChatSession) (gem : Option String) : List PyVal :=
  turnEnvelopeCore prompt files chat ++ gemSuffix gem

/-- Claim C1: for every wrapped core call, when the client is not running,
initialization runs synchronously before the first attempt; when that
initialization fails (per spec sections 4.1 and 7 a failed credential
acquisition raises `AuthError`, which `except APIError` does not catch),
the call fails immediately with that error, the wrapped function is never
invoked, and no retry happens regardless of the configured budget; when
initialization succeeds, the wrapped function runs. -/
theorem claim1_init_failure_not_retried {α : Type} (func : Nat → Except GError α)
    (c : Client) (calls retry : Nat) (h : c.running = false) :
    runningWrapper (some .AuthError) func c calls retry
      = (.error .AuthError, ⟨false⟩, calls)
    ∧ (∀ a, func calls = .ok a →
        runningWrapper Option.none func c calls retry = (.ok a, ⟨true⟩, calls + 1)) := by
  constructor
  · rw [runningWrapper.eq_def]
    simp [attemptOnce, h, initClient, isAPIError]
  · intro a ha
    rw [runningWrapper.eq_def]
    simp [attemptOnce, h, initClient, ha]

/-- Witness for C1: with a dead client and a failing initialization the call
returns `AuthError` at once with zero invocations even with budget 3; with a
succeeding initialization the call goes through. -/
theorem claim1_init_failure_not_retried_witness :
    (⟨false⟩ : Client).running = false
    ∧ runningWrapper (some .AuthError) (fun _ => Except.ok (0 : Nat)) ⟨false⟩ 0 3
        = (.error .AuthError, ⟨false⟩, 0)
    ∧ runningWrapper Option.none (fun _ => Except.ok (0 : Nat)) ⟨false⟩ 0 3
        = (.ok 0, ⟨true⟩, 1) :=
  ⟨rfl,
   (claim1_init_failure_not_retried (fun _ => Except.ok (0 : Nat)) ⟨false⟩ 0 3 rfl).1,
   (claim1_init_failure_not_retried (fun _ => Except.ok (0 : Nat)) ⟨false⟩ 0 3 rfl).2 0 rfl⟩

/-- Claim C2: a wrapped call that fails with `ImageGenerationError` on every
attempt invokes the wrapped function exactly `min (retry + 1) 2` times —
at most 2 regardless of the configured budget (so budget 3 gives 2 total
invocations, not 4), because the error caps the remaining budget at 1. -/
theorem claim2_image_generation_retry_cap {α : Type} (func : Nat → Except GError α)
    (c : Client) (calls retry : Nat) (hr : c.running = true)
    (hf : ∀ n, func n = .error .ImageGenerationError) :
    runningWrapper Option.none func c calls retry
      = (.error .ImageGenerationError, c, calls + min (retry + 1) 2)
    ∧ min (retry + 1) 2 ≤ 2 := by
  refine ⟨?_, Nat.min_le_right _ _⟩
  cases retry with
  | zero =>
    rw [runningWrapper.eq_def]
    simp [attemptOnce, hr, hf, isAPIError, adjustBudget]
  | succ k =>
    rw [runningWrapper.eq_def]
    simp only [attemptOnce, hr, if_true, hf, isAPIError, adjustBudget]
    have hm : 1 ⊓ (k + 1) = 1 := by omega
    rw [hm]
    norm_num
    rw [runningWrapper.eq_def]
    simp only [attemptOnce, hr, if_true, hf, isAPIError, adjustBudget]
    norm_num

/-- Witness for C2: with budget 3 and an always-`ImageGenerationError` call,
exactly 2 invocations happen. -/
theorem claim2_image_generation_retry_cap_witness :
    (⟨true⟩ : Client).running = true
    ∧ runningWrapper Option.none
        (fun _ => (Except.error .ImageGenerationError : Except GError Nat)) ⟨true⟩ 0 3
        = (.error .ImageGenerationError, ⟨true⟩, 2) :=
  ⟨rfl,
   (claim2_image_generation_retry_cap
     (fun _ => (Except.error .ImageGenerationError : Except GError Nat)) ⟨true⟩ 0 3
     rfl (fun _ => rfl)).1⟩

/-- Claim C3 counterexample: a `ChatSession` constructed with no arguments
(never completed a turn) contributes `[None, None, None]` — a null-filled
3-element array — as the lineage slot of the turn envelope, not an
omitted/null slot: `chat and chat.metadata` evaluates to the (truthy)
metadata list of the (truthy) session object. -/
theorem claim3_fresh_session_lineage_counterexample :
    ChatSession.make Option.none Option.none Option.none Option.none
        "unspecified" Option.none
      = .ok ⟨[.null, .null, .null], Option.none, "unspecified", Option.none⟩
    ∧ (turnEnvelope "Hello" []
        (some ⟨[.null, .null, .null], Option.none, "unspecified", Option.none⟩)
        Option.none).get? 2 = some (.list [.null, .null, .null])
    ∧ PyVal.list [.null, .null, .null] ≠ PyVal.null := by
  refine ⟨rfl, rfl, ?_⟩
  intro h
  cases h

/-- Claim C3 (amended): the lineage slot of the turn envelope is null
exactly when no chat session is supplied to the call; a session that has
never completed a turn supplies its metadata triple `[null, null, null]`
(a null-filled 3-element array) as the slot — the slot is never omitted
when a session is passed. -/
theorem claim3_fresh_session_lineage_amended (prompt : String)
    (files : List (PyVal × PyVal)) (gem : Option String)
    (m : String) (g : Option String) (s : ChatSession)
    (h : ChatSession.make Option.none Option.none Option.none Option.none m g = .ok s) :
    (turnEnvelope prompt files Option.none gem).get? 2 = some PyVal.null
    ∧ (turnEnvelope prompt files (some s) gem).get? 2
        = some (.list [.null, .null, .null]) := by
  have hs : s = ⟨[.null, .null, .null], Option.none, m, g⟩ := by
    simp [ChatSession.make] at h
    exact h.symm
  subst hs
  exact ⟨rfl, rfl⟩

/-- Witness for the amended C3 at a concrete fresh session. -/
theorem claim3_fresh_session_lineage_amended_witness :
    ChatSession.make Option.none Option.none Option.none Option.none
        "unspecified" Option.none
      = .ok ⟨[.null, .null, .null], Option.none, "unspecified", Option.none⟩
    ∧ (turnEnvelope "Hello" [] Option.none Option.none).get? 2 = some PyVal.null
    ∧ (turnEnvelope "Hello" []
        (some ⟨[.null, .null, .null], Option.none, "unspecified", Option.none⟩)
        Option.none).get? 2 = some (.list [.null, .null, .null]) :=
  ⟨rfl,
   (claim3_fresh_session_lineage_amended "Hello" [] Option.none "unspecified"
     Option.none _ rfl).1,
   (claim3_fresh_session_lineage_amended "Hello" [] Option.none "unspecified"
     Option.none _ rfl).2⟩

/-- Claim C4: with a (non-empty) gem id supplied, the encoder appends
exactly 16 null placeholders followed by the gem id to the turn envelope,
so the gem id lands exactly at position 17 after the lineage slot (overall
index 2 + 17 = 19, envelope length 20, indices 3 through 18 null); with no
gem supplied, nothing is appended.  (Under Python truthiness an
empty-string id behaves like no gem; an empty string is not a gem id.) -/
theorem claim4_gem_suffix_position (prompt : String) (files : List (PyVal × PyVal))
    (chat : Option ChatSession) (g : String) (hg : g ≠ "") :
    turnEnvelope prompt files chat (some g)
      = turnEnvelopeCore prompt files chat
          ++ (List.replicate 16 PyVal.null ++ [PyVal.str g])
    ∧ (turnEnvelope prompt files chat (some g)).get? (2 + 17) = some (PyVal.str g)
    ∧ (turnEnvelope prompt files chat (some g)).length = 20
    ∧ (∀ i, 3 ≤ i → i ≤ 18 →
        (turnEnvelope prompt files chat (some g)).get? i = some PyVal.null)
    ∧ turnEnvelope prompt files chat Option.none = turnEnvelopeCore prompt files chat := by
  have hs : gemSuffix (some g) = List.replicate 16 PyVal.null ++ [PyVal.str g] := by
    simp [gemSuffix, hg]
  refine ⟨?_, ?_, ?_, ?_, ?_⟩
  · simp [turnEnvelope, hs]
  · simp only [turnEnvelope, hs]
    rfl
  · simp only [turnEnvelope, hs]
    rfl
  · intro i h3 h18
    interval_cases i <;> (simp only [turnEnvelope, hs]; rfl)
  · simp [turnEnvelope, gemSuffix]

/-- Witness for C4 at a concrete gem id. -/
theorem claim4_gem_suffix_position_witness :
    "g123" ≠ ""
    ∧ (turnEnvelope "Hi" [] Option.none (some "g123")).get? (2 + 17)
        = some (PyVal.str "g123")
    ∧ (turnEnvelope "Hi" [] Option.none (some "g123")).length = 20
    ∧ turnEnvelope "Hi" [] Option.none Option.none
        = turnEnvelopeCore "Hi" [] Option.none :=
  ⟨by decide,
   (claim4_gem_suffix_position "Hi" [] Option.none "g123" (by decide)).2.1,
   (claim4_gem_suffix_position "Hi" [] Option.none "g123" (by decide)).2.2.1,
   (claim4_gem_suffix_position "Hi" [] Option.none "g123" (by decide)).2.2.2.2⟩

/-- Claim C5: when a candidate's generated-image marker is present (and the
earlier extraction phases succeeded), exhausting the scan of the outer
parts array — which starts at the previously recorded body index — without
finding a part whose re-parsed body has a truthy marker at the same
candidate index makes the parser raise `ImageGenerationError`, an error
kind distinct from the generic structural-failure `APIError`. -/
theorem claim5_image_scan_exhaustion_error (parts : List PyVal) (bodyIndex ci : Nat)
    (candidate : PyVal) (t : PyVal) (ws : List WebImage)
    (h1 : textPhase candidate = .ok t)
    (h2 : webImagesPhase candidate = .ok ws)
    (h3 : genMarkerPhase candidate = .ok true)
    (h4 : findImgBody parts bodyIndex ci = Option.none) :
    parseCandidate parts bodyIndex ci candidate = .error .ImageGenerationError
    ∧ GError.ImageGenerationError ≠ GError.APIError := by
  constructor
  · simp [parseCandidate, h1, h2, h3, genImagesPhase, h4]
  · simp

/-- A concrete candidate whose generated-image marker is set:
`candidate[1][0] = "hello"`, `candidate[12][1]` falsy (no web images),
`candidate[12][7][0]` truthy. -/
def sampleImgCandidate : PyVal :=
  .list [.str "rc1", .list [.str "hello"], .null, .null, .null, .null, .null, .null,
    .null, .null, .null, .null,
    .list [.null, .null, .null, .null, .null, .null, .null, .list [.list [.int 1]]]]

/-- Witness for C5: the sample candidate with an empty outer array (the
scan finds nothing) parses to `ImageGenerationError`. -/
theorem claim5_image_scan_exhaustion_error_witness :
    textPhase sampleImgCandidate = .ok (.str "hello")
    ∧ webImagesPhase sampleImgCandidate = .ok []
    ∧ genMarkerPhase sampleImgCandidate = .ok true
    ∧ findImgBody [] 0 0 = Option.none
    ∧ parseCandidate [] 0 0 sampleImgCandidate = .error .ImageGenerationError :=
  ⟨rfl, rfl, rfl, rfl,
   (claim5_image_scan_exhaustion_error [] 0 0 sampleImgCandidate (.str "hello") []
     rfl rfl rfl rfl).1⟩

/-- Claim C6: on a structural failure (no part yields a body), the handler
closes the connection and raises the classification of the numeric code
read at the fixed nested position `[0][5][2][0][1][0]` of the outer array:
`IP_TEMPORARILY_BLOCKED` maps to `TemporarilyBlocked` (distinct from the
generic `APIError`), the other two enum members map to their specific
errors, and any unmapped or unreadable or non-integer code falls through
to the generic `APIError`. -/
theorem claim6_error_code_classification (outer : PyVal) (parts : List PyVal)
    (h1 : outer = PyVal.list parts) (h2 : findBody parts = Option.none) :
    generate_content_handle 200 (some outer) = (.error (classifyError outer), false)
    ∧ (readErrorCode outer = some (.int ipTemporarilyBlockedCode) →
        classifyError outer = .TemporarilyBlocked)
    ∧ GError.TemporarilyBlocked ≠ GError.APIError
    ∧ (readErrorCode outer = some (.int usageLimitExceededCode) →
        classifyError outer = .UsageLimitExceeded)
    ∧ (readErrorCode outer = some (.int modelHeaderInvalidCode) →
        classifyError outer = .ModelInvalid)
    ∧ (∀ n, readErrorCode outer = some (.int n) → n ≠ usageLimitExceededCode →
        n ≠ modelHeaderInvalidCode → n ≠ ipTemporarilyBlockedCode →
        classifyError outer = .APIError)
    ∧ (readErrorCode outer = Option.none → classifyError outer = .APIError)
    ∧ (∀ v, readErrorCode outer = some v → (∀ n, v ≠ PyVal.int n) →
        classifyError outer = .APIError) := by
  subst h1
  refine ⟨?_, ?_, ?_, ?_, ?_, ?_, ?_, ?_⟩
  · simp [generate_content_handle, h2]
  · intro h
    simp [classifyError, h, usageLimitExceededCode, modelHeaderInvalidCode,
      ipTemporarilyBlockedCode]
  · simp
  · intro h
    simp [classifyError, h, usageLimitExceededCode]
  · intro h
    simp [classifyError, h, usageLimitExceededCode, modelHeaderInvalidCode]
  · intro n h hn1 hn2 hn3
    simp [classifyError, h, hn1, hn2, hn3]
  · intro h
    simp [classifyError, h]
  · intro v h hv
    cases v with
    | int n => exact absurd rfl (hv n)
    | null => simp [classifyError, h]
    | str s => simp [classifyError, h]
    | list xs => simp [classifyError, h]
    | enc w => simp [classifyError, h]

/-- The parts of a bodyless response whose first part carries the
`IP_TEMPORARILY_BLOCKED` code at `[0][5][2][0][1][0]`. -/
def sampleBlockedParts : List PyVal :=
  [.list [.null, .null, .null, .null, .null,
    .list [.null, .null, .list [.list [.null, .list [.int 1060]]]]]]

/-- The outer array built from `sampleBlockedParts`. -/
def sampleBlockedOuter : PyVal := .list sampleBlockedParts

/-- Witness for C6: the sample bodyless response with the blocked code
classifies to `TemporarilyBlocked` and the handler closes. -/
theorem claim6_error_code_classification_witness :
    sampleBlockedOuter = PyVal.list sampleBlockedParts
    ∧ findBody sampleBlockedParts = Option.none
    ∧ readErrorCode sampleBlockedOuter = some (.int ipTemporarilyBlockedCode)
    ∧ generate_content_handle 200 (some sampleBlockedOuter)
        = (.error (classifyError sampleBlockedOuter), false)
    ∧ classifyError sampleBlockedOuter = .TemporarilyBlocked :=
  ⟨rfl, rfl, rfl,
   (claim6_error_code_classification sampleBlockedOuter sampleBlockedParts rfl rfl).1,
   (claim6_error_code_classification sampleBlockedOuter sampleBlockedParts rfl rfl).2.1 rfl⟩

/-- Claim C7 counterexample: `fetch_gems` does NOT close the connection on a
non-200 status — the handler raises `APIError` with the running flag still
true (client.py lines 340-343 have no `close()` call), contradicting the
claim that every core call closes on non-200. -/
theorem claim7_fetch_gems_non200_counterexample :
    fetch_gems_handle 500 (some (.list [])) = (.error .APIError, true)
    ∧ (fetch_gems_handle 500 (some (.list []))).2 = true := ⟨rfl, rfl⟩

/-- Claim C7 (amended): on a non-200 status, `generate_content` closes the
connection (running becomes false) and raises `APIError`, while
`fetch_gems` raises `APIError` WITHOUT closing — `fetch_gems` closes only
on a structural parse failure of its response. -/
theorem claim7_non200_close_amended (status : Nat) (o1 o2 : Option PyVal)
    (h : status ≠ 200) :
    generate_content_handle status o1 = (.error .APIError, false)
    ∧ fetch_gems_handle status o2 = (.error .APIError, true) := by
  constructor
  · simp [generate_content_handle, h]
  · simp [fetch_gems_handle, h]

/-- Witness for the amended C7 at status 500. -/
theorem claim7_non200_close_amended_witness :
    (500 : Nat) ≠ 200
    ∧ generate_content_handle 500 Option.none = (.error .APIError, false)
    ∧ fetch_gems_handle 500 Option.none = (.error .APIError, true) :=
  ⟨by decide,
   (claim7_non200_close_amended 500 Option.none Option.none (by decide)).1,
   (claim7_non200_close_amended 500 Option.none Option.none (by decide)).2⟩

/-- Claim C8: `choose_candidate(index)` raises `ValueError` whenever the
session has no prior output or `index` is at least the candidate count;
for every valid index (`0 ≤ index < count`) it sets `chosen` on the last
output, updates the session's `rcid` slot to the chosen candidate's id,
and returns the otherwise unchanged last output. -/
theorem claim8_choose_candidate_spec (s : ChatSession) (i : Int) :
    (s.last_output = Option.none → s.choose_candidate i = .error .ValueError)
    ∧ (∀ out, s.last_output = some out → (out.candidates.length : Int) ≤ i →
        s.choose_candidate i = .error .ValueError)
    ∧ (∀ out cand, s.last_output = some out → 0 ≤ i →
        i < (out.candidates.length : Int) → pyGetI out.candidates i = some cand →
        s.choose_candidate i = .ok ({ out with chosen := i },
          { s with last_output := some { out with chosen := i },
                   metadata := s.metadata.set 2 cand.rcid })) := by
  refine ⟨?_, ?_, ?_⟩
  · intro h
    simp [ChatSession.choose_candidate, h]
  · intro out h hle
    simp [ChatSession.choose_candidate, h, hle]
  · intro out cand h h0 hlt hget
    simp only [ChatSession.choose_candidate, h]
    rw [if_neg (by omega)]
    simp [ModelOutput.rcidVal, hget, ChatSession.setRcid]

/-- A first sample candidate for the session claims. -/
def sampleCandA : Candidate := ⟨.str "rcA", .str "texta", Option.none, [], []⟩

/-- A second sample candidate for the session claims. -/
def sampleCandB : Candidate := ⟨.str "rcB", .str "textb", Option.none, [], []⟩

/-- A sample output with two candidates. -/
def sampleOutput : ModelOutput := ⟨.list [.str "c1", .str "r1"], [sampleCandA, sampleCandB], 0⟩

/-- A sample session holding `sampleOutput`. -/
def sampleSession : ChatSession :=
  ⟨[.str "c1", .str "r1", .str "rcA"], some sampleOutput, "unspecified", Option.none⟩

/-- A sample session with no prior output. -/
def emptySession : ChatSession :=
  ⟨[.null, .null, .null], Option.none, "unspecified", Option.none⟩

/-- Witness for C8: no prior output fails; index 5 of a 2-candidate output
fails; index 1 succeeds, choosing the second candidate. -/
theorem claim8_choose_candidate_spec_witness :
    emptySession.last_output = Option.none
    ∧ emptySession.choose_candidate 0 = .error .ValueError
    ∧ sampleSession.last_output = some sampleOutput
    ∧ sampleSession.choose_candidate 5 = .error .ValueError
    ∧ pyGetI sampleOutput.candidates 1 = some sampleCandB
    ∧ sampleSession.choose_candidate 1 = .ok ({ sampleOutput with chosen := 1 },
        { sampleSession with last_output := some { sampleOutput with chosen := 1 },
                             metadata := sampleSession.metadata.set 2 sampleCandB.rcid }) :=
  ⟨rfl,
   (claim8_choose_candidate_spec emptySession 0).1 rfl,
   rfl,
   (claim8_choose_candidate_spec sampleSession 5).2.1 sampleOutput rfl (by decide),
   rfl,
   (claim8_choose_candidate_spec sampleSession 1).2.2 sampleOutput sampleCandB rfl
     (by decide) (by decide) rfl⟩

/-- Claim C10: for a negative index `i` with `-count ≤ i < 0` the bounds
check (`index >= count`) does not fire: `choose_candidate(i)` does not
raise the out-of-range `ValueError`; it sets `chosen` to the negative
value `i` and updates the session's `rcid` from the candidate at position
`count + i` (Python negative indexing), even though the documented valid
range starts from 0. -/
theorem claim10_choose_candidate_negative_index (s : ChatSession) (out : ModelOutput)
    (i : Int) (cand : Candidate) (h : s.last_output = some out)
    (hlo : -(out.candidates.length : Int) ≤ i) (hhi : i < 0)
    (hget : out.candidates.get? (i + (out.candidates.length : Int)).toNat = some cand) :
    s.choose_candidate i = .ok ({ out with chosen := i },
      { s with last_output := some { out with chosen := i },
               metadata := s.metadata.set 2 cand.rcid })
    ∧ ({ out with chosen := i } : ModelOutput).chosen = i := by
  refine ⟨?_, rfl⟩
  simp only [ChatSession.choose_candidate, h]
  rw [if_neg (by omega)]
  simp only [ModelOutput.rcidVal, pyGetI]
  rw [if_neg (by omega), if_pos (by omega)]
  rw [hget]
  simp [ChatSession.setRcid]

/-- Witness for C10: index -1 on a 2-candidate output selects the candidate
at position 1 without raising. -/
theorem claim10_choose_candidate_negative_index_witness :
    sampleSession.last_output = some sampleOutput
    ∧ sampleOutput.candidates.get?
        ((-1 : Int) + (sampleOutput.candidates.length : Int)).toNat = some sampleCandB
    ∧ sampleSession.choose_candidate (-1) = .ok ({ sampleOutput with chosen := -1 },
        { sampleSession with last_output := some { sampleOutput with chosen := -1 },
                             metadata := sampleSession.metadata.set 2 sampleCandB.rcid }) :=
  ⟨rfl, rfl,
   (claim10_choose_candidate_negative_index sampleSession sampleOutput (-1) sampleCandB
     rfl (by decide) (by decide) (by rfl)).1⟩

/-- Claim C9: the bulk lineage setter rejects inputs longer than 3 with
`ValueError`; for inputs of length `k ≤ 3` it overwrites exactly the first
`k` slots (reading afterwards returns the set prefix) and leaves slots
beyond `k` unchanged, keeping the triple at length 3; each single-slot
setter (cid/rid/rcid) mutates exactly its own slot. -/
theorem claim9_lineage_setters_spec (s : ChatSession) (v : List PyVal)
    (hm : s.metadata.length = 3) :
    (3 < v.length → s.setMetadata v = .error .ValueError)
    ∧ (∀ s', s.setMetadata v = .ok s' →
        (∀ i, i < v.length → s'.metadata.get? i = v.get? i)
        ∧ (∀ i, v.length ≤ i → s'.metadata.get? i = s.metadata.get? i)
        ∧ s'.metadata.length = 3)
    ∧ (∀ x, (s.setCid x).metadata.get? 0 = some x
        ∧ ∀ j, j ≠ 0 → (s.setCid x).metadata.get? j = s.metadata.get? j)
    ∧ (∀ x, (s.setRid x).metadata.get? 1 = some x
        ∧ ∀ j, j ≠ 1 → (s.setRid x).metadata.get? j = s.metadata.get? j)
    ∧ (∀ x, (s.setRcid x).metadata.get? 2 = some x
        ∧ ∀ j, j ≠ 2 → (s.setRcid x).metadata.get? j = s.metadata.get? j) := by
  obtain ⟨md, lo, mo, ge⟩ := s
  simp only at hm
  rcases md with _ | ⟨a, _ | ⟨b, _ | ⟨c, _ | rest⟩⟩⟩ <;> simp only [List.length] at hm <;>
    try omega
  refine ⟨?_, ?_, ?_, ?_, ?_⟩
  · intro hv
    simp [ChatSession.setMetadata, hv]
  · intro s' hok
    have hv : ¬ 3 < v.length := by
      by_contra hc
      simp [ChatSession.setMetadata, hc] at hok
    have hs' : s'.metadata = v ++ [a, b, c].drop v.length := by
      simp [ChatSession.setMetadata, hv] at hok
      rw [← hok]
    rw [hs']
    rcases v with _ | ⟨x, _ | ⟨y, _ | ⟨z, _ | vrest⟩⟩⟩
    · exact ⟨fun i hi => absurd hi (Nat.not_lt_zero i), fun i _ => rfl, rfl⟩
    · refine ⟨?_, ?_, rfl⟩
      · intro i hi
        simp only [List.length_cons, List.length_nil] at hi
        interval_cases i <;> rfl
      · intro i hi
        simp only [List.length_cons, List.length_nil] at hi
        rcases i with _ | _ | _ | i <;> first | omega | rfl
    · refine ⟨?_, ?_, rfl⟩
      · intro i hi
        simp only [List.length_cons, List.length_nil] at hi
        interval_cases i <;> rfl
      · intro i hi
        simp only [List.length_cons, List.length_nil] at hi
        rcases i with _ | _ | _ | i <;> first | omega | rfl
    · refine ⟨?_, ?_, rfl⟩
      · intro i hi
        simp only [List.length_cons, List.length_nil] at hi
        interval_cases i <;> rfl
      · intro i hi
        simp only [List.length_cons, List.length_nil] at hi
        rcases i with _ | _ | _ | i <;> first | omega | rfl
    · exfalso
      apply hv
      simp only [List.length_cons]
      omega
  · intro x
    exact ⟨rfl, by intro j hj; rcases j with _ | _ | _ | j <;> first | omega | rfl⟩
  · intro x
    exact ⟨rfl, by intro j hj; rcases j with _ | _ | _ | j <;> first | omega | rfl⟩
  · intro x
    exact ⟨rfl, by intro j hj; rcases j with _ | _ | _ | j <;> first | omega | rfl⟩

/-- The sample session after `setMetadata ["x"]`: only slot 0 replaced. -/
def sampleSetSession : ChatSession :=
  ⟨[.str "x", .str "r1", .str "rcA"], some sampleOutput, "unspecified", Option.none⟩

/-- Witness for C9: a 4-element input fails; a 1-element input overwrites
slot 0 and keeps slots 1-2; `setCid` mutates only slot 0. -/
theorem claim9_lineage_setters_spec_witness :
    sampleSession.metadata.length = 3
    ∧ sampleSession.setMetadata [.str "1", .str "2", .str "3", .str "4"]
        = .error .ValueError
    ∧ sampleSession.setMetadata [.str "x"] = .ok sampleSetSession
    ∧ sampleSetSession.metadata.get? 0 = ([PyVal.str "x"] : List PyVal).get? 0
    ∧ sampleSetSession.metadata.get? 2 = sampleSession.metadata.get? 2
    ∧ (sampleSession.setCid (.str "n")).metadata.get? 0 = some (.str "n")
    ∧ (sampleSession.setCid (.str "n")).metadata.get? 1 = sampleSession.metadata.get? 1 :=
  ⟨rfl,
   (claim9_lineage_setters_spec sampleSession [.str "1", .str "2", .str "3", .str "4"]
     rfl).1 (by decide),
   rfl,
   ((claim9_lineage_setters_spec sampleSession [.str "x"] rfl).2.1 sampleSetSession
     rfl).1 0 (by decide),
   ((claim9_lineage_setters_spec sampleSession [.str "x"] rfl).2.1 sampleSetSession
     rfl).2.1 2 (by decide),
   ((claim9_lineage_setters_spec sampleSession [.str "x"] rfl).2.2.1 (.str "n")).1,
   ((claim9_lineage_setters_spec sampleSession [.str "x"] rfl).2.2.1 (.str "n")).2 1
     (by decide)⟩
